import Mathlib

/-
Shallow embedding of the personal finance tracker's core layer
(src/core/{models,database,profile_manager,category_manager,entry_manager,
importer,exporter}.py) and proofs about its specified properties.

Modelling conventions:
* The SQLite database state is a record of the three tables plus the
  AUTOINCREMENT counters.  SQL statements executed by the managers are
  translated to the corresponding list transformations.
* Python `float` amounts are modelled as rationals; `datetime.date` as a
  (year, month, day) record validated exactly as `strptime "%Y-%m-%d"`
  accepts it on plain digit input.
* Exceptions are modelled with `Except`: an error value carries the
  database state left behind by the raising operation, so "no row was
  persisted" is expressible.  An unexpected storage-layer failure
  (sqlite3 raising inside `Database.execute`) is injected through the
  `sfail` flag of each mutating operation; the operation's own
  `try/except` structure determines whether that failure is re-raised
  (wrapped in a RuntimeError, as in `add_entry`/`create_profile`) or
  swallowed into a `False` return (as in `update_profile` etc.).
* CSV files are modelled after the delimiter/encoding layer: a file is
  the list of its rows, each row the list of its fields, the first row
  being the header (`csv.DictReader` semantics).  Wall-clock timestamps
  (`created_at`), file-system errors and the importer's second
  connection are outside the embedding and are not used by any claim.
-/

namespace FinTrack

/-- Calendar date as produced by `datetime.strptime(s, "%Y-%m-%d").date()`. -/
structure Date where
  year : Nat
  month : Nat
  day : Nat
deriving DecidableEq, Repr

/-- Numeric sort key; `entries.date` is stored as the zero-padded ISO string,
on which SQLite's lexicographic comparison coincides with this key. -/
def Date.key (d : Date) : Nat :=
  d.year * 10000 + d.month * 100 + d.day

def isLeapYear (y : Nat) : Bool :=
  (y % 4 == 0 && y % 100 != 0) || y % 400 == 0

def daysInMonth (y m : Nat) : Nat :=
  if m = 2 then (if isLeapYear y then 29 else 28)
  else if m = 4 ∨ m = 6 ∨ m = 9 ∨ m = 11 then 30
  else 31

/-- Zero-padded decimal rendering used by `date.isoformat()`. -/
def padNat (width n : Nat) : String :=
  let s := toString n
  if s.length < width then String.mk (List.replicate (width - s.length) '0') ++ s
  else s

def Date.iso (d : Date) : String :=
  padNat 4 d.year ++ "-" ++ padNat 2 d.month ++ "-" ++ padNat 2 d.day

/-- Splitting a character list on a separator, the semantics of
`str.split(sep)` for a one-character separator. -/
def splitChar (sep : Char) : List Char → List (List Char)
  | [] => [[]]
  | c :: cs =>
    match splitChar sep cs with
    | [] => if c = sep then [[], []] else [[c]]
    | g :: gs => if c = sep then [] :: g :: gs else (c :: g) :: gs

/-- Python str.strip(): leading and trailing whitespace removed. -/
def pyStrip (s : String) : String :=
  String.mk (((s.data.dropWhile Char.isWhitespace).reverse.dropWhile
      Char.isWhitespace).reverse)

/-- Numeric value of a list of decimal digit characters. -/
def digitsToNat (cs : List Char) : Nat :=
  cs.foldl (fun acc c => acc * 10 + (c.toNat - 48)) 0

/-- Parsing by datetime.strptime(s, "%Y-%m-%d"): three dash-separated digit groups
(year up to four digits, month/day up to two), forming a valid calendar
date. -/
def parseDate (s : String) : Option Date :=
  match splitChar '-' s.data with
  | [ys, ms, ds] =>
    if ys.length ≥ 1 ∧ ys.length ≤ 4 ∧ ys.all Char.isDigit
        ∧ ms.length ≥ 1 ∧ ms.length ≤ 2 ∧ ms.all Char.isDigit
        ∧ ds.length ≥ 1 ∧ ds.length ≤ 2 ∧ ds.all Char.isDigit then
      let y := digitsToNat ys
      let m := digitsToNat ms
      let d := digitsToNat ds
      if 1 ≤ y ∧ 1 ≤ m ∧ m ≤ 12 ∧ 1 ≤ d ∧ d ≤ daysInMonth y m then
        some ⟨y, m, d⟩
      else none
    else none
  | _ => none

/-- Python `float(s)` on the plain decimal forms this pipeline produces and
validates: optional sign, digits with an optional decimal point. -/
def parseDecimalCore (t : List Char) : Option ℚ :=
  match splitChar '.' t with
  | [ip, fp] =>
    if (ip.length + fp.length ≥ 1) ∧ ip.all Char.isDigit ∧ fp.all Char.isDigit then
      some ((digitsToNat ip : ℚ) + (digitsToNat fp : ℚ) / ((10 : ℚ) ^ fp.length))
    else none
  | [ip] =>
    if ip.length ≥ 1 ∧ ip.all Char.isDigit then some ((digitsToNat ip : ℚ))
    else none
  | _ => none

def parseDecimal (s : String) : Option ℚ :=
  match s.data with
  | '-' :: rest => (parseDecimalCore rest).map (fun q => -q)
  | '+' :: rest => parseDecimalCore rest
  | cs => parseDecimalCore cs

/-- models.Profile (`created_at` is a wall-clock value no claim touches). -/
structure Profile where
  id : Nat
  name : String
  description : String
deriving DecidableEq, Repr

/-- models.Category. -/
structure Category where
  id : Nat
  name : String
  parent : Option String
deriving DecidableEq, Repr

/-- models.Entry. -/
structure Entry where
  id : Nat
  profile_id : Nat
  date : Date
  type : String
  amount : ℚ
  category : String
  subcategory : Option String
  note : Option String
deriving DecidableEq, Repr

/-- models.Statistics. -/
structure Statistics where
  total_income : ℚ
  total_expense : ℚ
  balance : ℚ
  count : Nat
deriving DecidableEq, Repr

/-- models.QueryFilters. -/
structure QueryFilters where
  start_date : Option Date := none
  end_date : Option Date := none
  entry_type : Option String := none
  category : Option String := none
deriving DecidableEq, Repr

/-- The SQLite database: the three tables plus AUTOINCREMENT counters. -/
structure DBState where
  profiles : List Profile
  categories : List Category
  entries : List Entry
  nextProfileId : Nat
  nextCategoryId : Nat
  nextEntryId : Nat
deriving DecidableEq, Repr

/-- Python exception values the core layer raises. -/
inductive PyError where
  | valueError (msg : String)
  | runtimeError (msg : String)
deriving DecidableEq, Repr

/-- Result of a manager call: either a normal return together with the
database state it leaves, or a raised exception together with the state
it leaves (rollback semantics make that the pre-call state). -/
abbrev PyM (α : Type) := Except (PyError × DBState) (DBState × α)

/-- Python x.strip-if-x-else-None, applied to an optional string argument. -/
def optStrip : Option String → Option String
  | none => none
  | some s => if s = "" then none else some (pyStrip s)

/-- EntryManager.add_entry.  Validation happens before the INSERT, so a
ValidationError leaves the table untouched; an unexpected storage failure
(`sfail`) is rolled back and re-raised wrapped in a RuntimeError. -/
def addEntry (sfail : Bool) (st : DBState) (profile_id : Nat) (entry_date : Date)
    (entry_type : String) (amount : ℚ) (category : String)
    (subcategory : Option String) (note : Option String) : PyM Entry :=
  if entry_type ∉ (["收入", "支出"] : List String) then
    .error (.valueError "条目类型必须是 收入 或 支出", st)
  else if amount < 0 then
    .error (.valueError "金额不能为负数", st)
  else if pyStrip category = "" then
    .error (.valueError "一级分类不能为空", st)
  else if sfail then
    .error (.runtimeError "添加条目失败", st)
  else
    let e : Entry :=
      { id := st.nextEntryId, profile_id := profile_id, date := entry_date,
        type := entry_type, amount := amount, category := pyStrip category,
        subcategory := optStrip subcategory, note := optStrip note }
    .ok ({ st with entries := st.entries ++ [e], nextEntryId := st.nextEntryId + 1 }, e)

/-- EntryManager.get_entry: `SELECT * FROM entries WHERE id = ?`. -/
def getEntry (st : DBState) (entry_id : Nat) : Option Entry :=
  st.entries.find? (fun e => e.id == entry_id)

/-- The conjunctive WHERE clause shared by get_entries and get_statistics:
`profile_id = ?` plus one clause per filter field that is set.  Date
comparisons are on the stored ISO strings, equivalently on `Date.key`. -/
def matchesFilter (profile_id : Nat) (filters : Option QueryFilters) (e : Entry) : Bool :=
  e.profile_id == profile_id &&
    (match filters with
     | none => true
     | some f =>
       (match f.start_date with | none => true | some d => d.key ≤ e.date.key) &&
       (match f.end_date with | none => true | some d => e.date.key ≤ d.key) &&
       (match f.entry_type with | none => true | some t => e.type == t) &&
       (match f.category with | none => true | some c => e.category == c))

/-- The order ORDER BY date DESC, id DESC: `a` may precede `b`. -/
def entryBefore (a b : Entry) : Bool :=
  b.date.key < a.date.key || (b.date.key == a.date.key && b.id ≤ a.id)

def insertSorted (le : Entry → Entry → Bool) (x : Entry) : List Entry → List Entry
  | [] => [x]
  | y :: ys => if le x y then x :: y :: ys else y :: insertSorted le x ys

def sortEntries (le : Entry → Entry → Bool) : List Entry → List Entry
  | [] => []
  | x :: xs => insertSorted le x (sortEntries le xs)

/-- EntryManager.get_entries: filtered SELECT ordered by date desc, id desc. -/
def getEntries (st : DBState) (profile_id : Nat) (filters : Option QueryFilters) :
    List Entry :=
  sortEntries entryBefore (st.entries.filter (matchesFilter profile_id filters))

/-- EntryManager.delete_entry: any storage failure is rolled back and
swallowed into a `False` return. -/
def deleteEntry (sfail : Bool) (st : DBState) (entry_id : Nat) : PyM Bool :=
  if sfail then .ok (st, false)
  else
    let affected := (st.entries.filter (fun e => e.id == entry_id)).length
    .ok ({ st with entries := st.entries.filter (fun e => e.id != entry_id) },
         affected > 0)

/-- EntryManager.get_statistics: income and expense rows are summed and
counted separately under the same filter predicate, then combined. -/
def getStatistics (st : DBState) (profile_id : Nat) (filters : Option QueryFilters) :
    Statistics :=
  let income := st.entries.filter (fun e => matchesFilter profile_id filters e && e.type == "收入")
  let expense := st.entries.filter (fun e => matchesFilter profile_id filters e && e.type == "支出")
  let total_income := (income.map Entry.amount).sum
  let total_expense := (expense.map Entry.amount).sum
  { total_income := total_income, total_expense := total_expense,
    balance := total_income - total_expense,
    count := income.length + expense.length }

/-- EntryManager.get_entry_count. -/
def getEntryCount (st : DBState) (profile_id : Nat) : Nat :=
  (st.entries.filter (fun e => e.profile_id == profile_id)).length

/-- The per-field effect of EntryManager.update_entry's UPDATE statement on
the matching row: a supplied field is overwritten (strings trimmed the same
way add_entry trims them), an unsupplied field keeps its previous value. -/
def updField (e : Entry) (entry_date : Option Date) (entry_type : Option String)
    (amount : Option ℚ) (category : Option String) (subcategory : Option String)
    (note : Option String) : Entry :=
  { e with
    date := entry_date.getD e.date,
    type := entry_type.getD e.type,
    amount := amount.getD e.amount,
    category := (category.map pyStrip).getD e.category,
    subcategory := match subcategory with | none => e.subcategory | some s => optStrip (some s),
    note := match note with | none => e.note | some s => optStrip (some s) }

/-- EntryManager.update_entry.  Validation of supplied fields happens before
the try-block, so it raises ValueError; a no-field call returns True without
touching the database; a storage failure is rolled back and swallowed. -/
def updateEntry (sfail : Bool) (st : DBState) (entry_id : Nat)
    (entry_date : Option Date) (entry_type : Option String) (amount : Option ℚ)
    (category : Option String) (subcategory : Option String) (note : Option String) :
    PyM Bool :=
  if entry_type.any (fun t => !(["收入", "支出"] : List String).contains t) then
    .error (.valueError "条目类型必须是 收入 或 支出", st)
  else if amount.any (fun a => decide (a < 0)) then
    .error (.valueError "金额不能为负数", st)
  else if category.any (fun c => pyStrip c == "") then
    .error (.valueError "一级分类不能为空", st)
  else if entry_date = none ∧ entry_type = none ∧ amount = none ∧ category = none
      ∧ subcategory = none ∧ note = none then
    .ok (st, true)
  else if sfail then
    .ok (st, false)
  else
    let affected := (st.entries.filter (fun e => e.id == entry_id)).length
    .ok ({ st with entries := st.entries.map (fun e =>
            if e.id == entry_id then
              updField e entry_date entry_type amount category subcategory note
            else e) },
         affected > 0)

/-- ProfileManager.create_profile: proactive duplicate check raising
ValueError, then INSERT; a storage failure is re-raised as RuntimeError. -/
def createProfile (sfail : Bool) (st : DBState) (name : String)
    (description : String) : PyM Profile :=
  if st.profiles.any (fun p => p.name == name) then
    .error (.valueError ("账户名 " ++ name ++ " 已存在"), st)
  else if sfail then
    .error (.runtimeError "创建账户失败", st)
  else
    let p : Profile := { id := st.nextProfileId, name := name, description := description }
    .ok ({ st with
            profiles := st.profiles ++ [p],
            nextProfileId := st.nextProfileId + 1 }, p)

/-- ProfileManager.get_profile_by_name. -/
def getProfileByName (st : DBState) (name : String) : Option Profile :=
  st.profiles.find? (fun p => p.name == name)

/-- ProfileManager.delete_profile.  The schema declares
`FOREIGN KEY (profile_id) REFERENCES profiles(id) ON DELETE CASCADE` and
init_db enables `PRAGMA foreign_keys = ON`, so the DELETE also removes the
profile's entries; a storage failure is rolled back and swallowed. -/
def deleteProfile (sfail : Bool) (st : DBState) (profile_id : Nat) : PyM Bool :=
  if sfail then .ok (st, false)
  else
    let affected := (st.profiles.filter (fun p => p.id == profile_id)).length
    .ok ({ st with
            profiles := st.profiles.filter (fun p => p.id != profile_id),
            entries := st.entries.filter (fun e => e.profile_id != profile_id) },
         affected > 0)

/-- ProfileManager.update_profile.  `if not name and description is None`
returns True immediately; a name collision raises ValueError inside the
method's own try-block and is therefore swallowed into `False`; an empty
name is falsy and never enters the name-update branch; any storage failure
is rolled back and swallowed into `False`. -/
def updateProfile (sfail : Bool) (st : DBState) (profile_id : Nat)
    (name : Option String) (description : Option String) : PyM Bool :=
  if (name = none ∨ name = some "") ∧ description = none then
    .ok (st, true)
  else if name.any (fun nv =>
      !(nv == "") && st.profiles.any (fun p => p.name == nv && p.id != profile_id)) then
    .ok (st, false)
  else if sfail then
    .ok (st, false)
  else
    let affected := (st.profiles.filter (fun p => p.id == profile_id)).length
    .ok ({ st with profiles := st.profiles.map (fun p =>
            if p.id == profile_id then
              { p with
                name := match name with
                  | some nv => if nv = "" then p.name else nv
                  | none => p.name,
                description := description.getD p.description }
            else p) },
         affected > 0)

/-- CategoryManager.add_category: proactive duplicate check on the pair
(name, parent) — `parent IS NULL` when no parent is supplied — raising
ValueError, then INSERT; a storage failure is re-raised as RuntimeError. -/
def addCategory (sfail : Bool) (st : DBState) (name : String)
    (parent : Option String) : PyM Category :=
  if st.categories.any (fun c => c.name == name && c.parent == parent) then
    .error (.valueError ("分类 " ++ name ++ " 已存在"), st)
  else if sfail then
    .error (.runtimeError "添加分类失败", st)
  else
    let c : Category := { id := st.nextCategoryId, name := name, parent := parent }
    .ok ({ st with
            categories := st.categories ++ [c],
            nextCategoryId := st.nextCategoryId + 1 }, c)

/-- CategoryManager.delete_category: any storage failure is rolled back and
swallowed into a `False` return. -/
def deleteCategory (sfail : Bool) (st : DBState) (category_id : Nat) : PyM Bool :=
  if sfail then .ok (st, false)
  else
    let affected := (st.categories.filter (fun c => c.id == category_id)).length
    .ok ({ st with categories := st.categories.filter (fun c => c.id != category_id) },
         affected > 0)

/-- Round-half-even to an integer, the rounding `f"{amount:.2f}"` performs
on exactly representable values (binary-float artifacts are outside the
rational model). -/
def roundHalfEven (q : ℚ) : ℤ :=
  let f := Int.ediv q.num q.den
  let r2 := 2 * (q.num - f * q.den)
  if r2 < q.den then f
  else if q.den < r2 then f + 1
  else if f % 2 = 0 then f else f + 1

/-- The format f-string .2f applied to entry.amount: the amount with exactly two decimal places. -/
def formatAmount2 (q : ℚ) : String :=
  let c := roundHalfEven (q * 100)
  let sign := if c < 0 then "-" else ""
  let n := c.natAbs
  sign ++ toString (n / 100) ++ "." ++ padNat 2 (n % 100)

/-- The fixed header row DataExporter._generate_csv_content writes. -/
def exportHeader : List String :=
  ["日期", "类型", "金额", "一级分类", "二级分类", "备注"]

/-- One data row written by DataExporter._generate_csv_content. -/
def exportRow (e : Entry) : List String :=
  [e.date.iso, e.type, formatAmount2 e.amount, e.category,
   e.subcategory.getD "", e.note.getD ""]

/-- DataExporter._generate_csv_content, at the level of the rows handed to
`csv.writer` (the byte-level CSV serialization is injective on these
fields and is not modelled). -/
def generateCsvContent (entries : List Entry) : List (List String) :=
  exportHeader :: entries.map exportRow

/-- DataExporter.export_to_string: rows of the produced CSV, or none when
the profile has no matching entries. -/
def exportToString (st : DBState) (profile_id : Nat) (filters : Option QueryFilters) :
    Option (List (List String)) :=
  let entries := getEntries st profile_id filters
  if entries.isEmpty then none else some (generateCsvContent entries)

/-- DataImporter.required_headers. -/
def requiredHeaders : List String :=
  ["日期", "类型", "金额", "分类"]

/-- Cell access row.get(col, "") of csv.DictReader: the value under the
header column named `col`, "" when the column is absent or the row short. -/
def rowGet (header row : List String) (col : String) : String :=
  match header.findIdx? (fun h => h == col) with
  | some i => row.getD i ""
  | none => ""

/-- DataImporter._validate_date. -/
def validateDate (date_str : String) : Bool :=
  !(parseDate date_str).isNone

/-- DataImporter._validate_type. -/
def validateType (type_str : String) : Bool :=
  (["收入", "支出"] : List String).contains type_str

/-- DataImporter._validate_amount. -/
def validateAmount (amount_str : String) : Bool :=
  if amount_str = "" then false
  else match parseDecimal amount_str with
    | some a => decide (0 ≤ a)
    | none => false

/-- DataImporter._validate_row: all per-row errors are collected. -/
def validateRow (header row : List String) (line_num : Nat) : List String :=
  (if !validateDate (pyStrip (rowGet header row "日期")) then
    ["第 " ++ toString line_num ++ " 行：日期格式错误，应为 YYYY-MM-DD"] else [])
  ++ (if !validateType (pyStrip (rowGet header row "类型")) then
    ["第 " ++ toString line_num ++ " 行：类型必须是 收入 或 支出"] else [])
  ++ (if !validateAmount (pyStrip (rowGet header row "金额")) then
    ["第 " ++ toString line_num ++ " 行：金额格式错误或为负数"] else [])
  ++ (if pyStrip (rowGet header row "分类") = "" then
    ["第 " ++ toString line_num ++ " 行：分类不能为空"] else [])

/-- The data-row validation loop of DataImporter.validate_csv. -/
def validateRows (header : List String) : List (List String) → Nat → List String
  | [], _ => []
  | r :: rs, line_num => validateRow header r line_num ++ validateRows header rs (line_num + 1)

/-- DataImporter.validate_csv on an in-memory CSV (first row the header,
as `csv.DictReader` sees it).  File-not-found and decode errors concern
the file system and are outside the model. -/
def validateCsv (file : List (List String)) : Bool × List String :=
  match file with
  | [] => (false, ["文件为空或格式不正确"])
  | header :: dataRows =>
    let missing := requiredHeaders.filter (fun h => !header.contains h)
    if !missing.isEmpty then
      (false, ["缺少必需的列: " ++ String.intercalate ", " missing])
    else if dataRows.isEmpty then
      (false, ["文件中没有数据行"])
    else
      let errs := validateRows header dataRows 2
      (errs.isEmpty, errs)

/-- The per-row parse step of DataImporter.import_from_csv: date, type,
amount, category, optional subcategory and note; a parse failure raises
inside the per-row try-block. -/
def parseImportRow (header row : List String) :
    Except String (Date × String × ℚ × String × Option String × Option String) :=
  match parseDate (pyStrip (rowGet header row "日期")) with
  | none => .error "日期格式错误"
  | some d =>
    match parseDecimal (pyStrip (rowGet header row "金额")) with
    | none => .error "金额格式错误"
    | some a =>
      let ty := pyStrip (rowGet header row "类型")
      let cat := pyStrip (rowGet header row "分类")
      let sc := pyStrip (rowGet header row "子分类")
      let nt := pyStrip (rowGet header row "备注")
      .ok (d, ty, a, cat,
           (if sc = "" then none else some sc),
           (if nt = "" then none else some nt))

/-- The per-row import loop: each row is parsed and inserted independently;
an exception from a row (parse failure or an add_entry error) is caught,
recorded as a line-numbered error string, and processing continues. -/
def importRows (sfail : Bool) (profile_id : Nat) (header : List String) :
    List (List String) → Nat → DBState → Nat → List String →
    DBState × Nat × List String
  | [], _, st, count, errs => (st, count, errs)
  | r :: rs, line_num, st, count, errs =>
    match parseImportRow header r with
    | .error m =>
      importRows sfail profile_id header rs (line_num + 1) st count
        (errs ++ ["第 " ++ toString line_num ++ " 行导入失败: " ++ m])
    | .ok (d, ty, a, cat, sc, nt) =>
      match addEntry sfail st profile_id d ty a cat sc nt with
      | .ok (st2, _) =>
        importRows sfail profile_id header rs (line_num + 1) st2 (count + 1) errs
      | .error (_, st2) =>
        importRows sfail profile_id header rs (line_num + 1) st2 count
          (errs ++ ["第 " ++ toString line_num ++ " 行导入失败"])

/-- DataImporter.import_from_csv: re-validates first and short-circuits
with the validation errors on failure; otherwise runs the per-row loop.
The second connection it opens for durable stores is an optimization with
the same visible state and is not modelled separately. -/
def importFromCsv (sfail : Bool) (st : DBState) (profile_id : Nat)
    (file : List (List String)) : DBState × Nat × List String :=
  let v := validateCsv file
  if !v.1 then (st, 0, v.2)
  else
    match file with
    | [] => (st, 0, [])
    | header :: dataRows => importRows sfail profile_id header dataRows 2 st 0 []

/-- The (date, type, amount, category, subcategory, note) tuple of an
entry, the value the round-trip property compares. -/
def entryTuple (e : Entry) :
    Date × String × ℚ × String × Option String × Option String :=
  (e.date, e.type, e.amount, e.category, e.subcategory, e.note)

instance : DecidableEq (String × ℚ × String × Option String × Option String) :=
  inferInstance

instance : DecidableEq (Date × String × ℚ × String × Option String × Option String) :=
  inferInstance

/-- A freshly initialised database (after init_db, before any seeding). -/
def stEmpty : DBState :=
  { profiles := [], categories := [], entries := [],
    nextProfileId := 1, nextCategoryId := 1, nextEntryId := 1 }

/-- A database holding one empty profile, as the import tests build it. -/
def stImport : DBState :=
  { profiles := [{ id := 1, name := "Import User", description := "" }],
    categories := [], entries := [],
    nextProfileId := 2, nextCategoryId := 1, nextEntryId := 1 }

/-- A database with two profiles owning one entry each. -/
def stTwo : DBState :=
  { profiles := [{ id := 1, name := "User 1", description := "" },
                 { id := 2, name := "User 2", description := "" }],
    categories := [],
    entries := [{ id := 1, profile_id := 1, date := ⟨2023, 1, 1⟩, type := "收入",
                  amount := 5000, category := "工资", subcategory := none, note := none },
                { id := 2, profile_id := 2, date := ⟨2023, 1, 2⟩, type := "支出",
                  amount := 100, category := "餐饮", subcategory := some "午餐", note := none }],
    nextProfileId := 3, nextCategoryId := 1, nextEntryId := 3 }

/-- The 3-data-row CSV of the partial-import scenario (file lines 2 to 4):
row 1 valid, row 2 with an invalid date, row 3 with a non-numeric amount. -/
def csvThreeRows : List (List String) :=
  [["日期", "类型", "金额", "分类"],
   ["2023-01-01", "收入", "5000", "工资"],
   ["invalid-date", "支出", "100", "餐饮"],
   ["2023-01-03", "支出", "invalid", "交通"]]

/-- C1 (amended): the CSV produced by DataExporter._generate_csv_content is
never accepted by DataImporter's required-header check — export labels the
category column 一级分类 while import requires the exact token 分类 — so
importing an exported profile into any target state leaves that state
unchanged and returns an imported count of 0 together with the single
missing-required-column error; the round trip reproduces no entries. -/
theorem export_import_roundtrip_rejected (src : DBState) (spid : Nat)
    (dst : DBState) (dpid : Nat) :
    importFromCsv false dst dpid (generateCsvContent (getEntries src spid none)) =
      (dst, 0, ["缺少必需的列: 分类"]) := rfl

/-- C1 counterexample: a profile holding one entry, exported by
_generate_csv_content and imported into an empty profile, yields an empty
entry set and an imported count of 0, so the set of (date, type, amount,
category, subcategory, note) tuples is not reproduced. -/
theorem export_import_roundtrip_counterexample :
    (importFromCsv false stImport 1
        (generateCsvContent (getEntries stTwo 1 none))).1.entries.map entryTuple = [] ∧
    (getEntries stTwo 1 none).map entryTuple ≠ [] ∧
    (importFromCsv false stImport 1
        (generateCsvContent (getEntries stTwo 1 none))).2.1 = 0 := by
  decide

/-- C2: on the 3-row CSV whose second data row has an invalid date and whose
third has a non-numeric amount, import_from_csv re-validates the file,
validate_csv collects the two line-numbered row errors and reports the file
invalid, so the call returns an imported count of 0 together with those two
errors and persists nothing — not importedCount 1 with row 1 persisted as
the repository's own test test_import_from_csv_row_errors expects. -/
theorem import_three_row_csv_short_circuits :
    importFromCsv false stImport 1 csvThreeRows =
      (stImport, 0,
        ["第 3 行：日期格式错误，应为 YYYY-MM-DD", "第 4 行：金额格式错误或为负数"]) := by
  decide

/-- C3: import_from_csv first re-runs validate_csv; whenever validate_csv
reports the file invalid, the import returns an imported count of 0 together
with exactly the validation errors and leaves the database untouched. -/
theorem importFromCsv_returns_validation_errors (sfail : Bool) (st : DBState)
    (profile_id : Nat) (file : List (List String))
    (h : (validateCsv file).1 = false) :
    importFromCsv sfail st profile_id file = (st, 0, (validateCsv file).2) := by
  simp [importFromCsv, h]

/-- Witness for C3 at a concrete header-only file missing two required
columns. -/
theorem importFromCsv_returns_validation_errors_witness :
    (validateCsv [["日期", "类型"]]).1 = false ∧
    importFromCsv false stImport 1 [["日期", "类型"]] =
      (stImport, 0, (validateCsv [["日期", "类型"]]).2) :=
  ⟨by decide, importFromCsv_returns_validation_errors false stImport 1 _ (by decide)⟩

/-- C7: for every profile id and every filter combination, the Statistics
returned by EntryManager.get_statistics satisfies
balance = total_income − total_expense and count = income_count +
expense_count, where the income and expense rows are separately summed and
counted under the same filter predicate. -/
theorem getStatistics_balance_count (st : DBState) (profile_id : Nat)
    (filters : Option QueryFilters) :
    (getStatistics st profile_id filters).balance =
        (getStatistics st profile_id filters).total_income -
          (getStatistics st profile_id filters).total_expense ∧
    (getStatistics st profile_id filters).count =
        (st.entries.filter (fun e =>
          matchesFilter profile_id filters e && e.type == "收入")).length +
        (st.entries.filter (fun e =>
          matchesFilter profile_id filters e && e.type == "支出")).length ∧
    (getStatistics st profile_id filters).total_income =
        ((st.entries.filter (fun e =>
          matchesFilter profile_id filters e && e.type == "收入")).map Entry.amount).sum ∧
    (getStatistics st profile_id filters).total_expense =
        ((st.entries.filter (fun e =>
          matchesFilter profile_id filters e && e.type == "支出")).map Entry.amount).sum :=
  ⟨rfl, rfl, rfl, rfl⟩

/-- C5: EntryManager.add_entry raises a ValidationError (ValueError) exactly
when the type is not 收入 or 支出, or the amount is negative, or the category
is empty after trimming — and then the table is untouched (the error carries
the unchanged pre-call state); every successfully inserted entry satisfies
amount ≥ 0 and type ∈ {收入, 支出}, and is appended to the entry table. -/
theorem addEntry_validates_and_inserts (st : DBState) (profile_id : Nat)
    (entry_date : Date) (entry_type : String) (amount : ℚ) (category : String)
    (subcategory note : Option String) :
    ((∃ m, addEntry false st profile_id entry_date entry_type amount category
        subcategory note = .error (.valueError m, st)) ↔
      (entry_type ∉ (["收入", "支出"] : List String) ∨ amount < 0 ∨
        pyStrip category = "")) ∧
    (∀ st2 e, addEntry false st profile_id entry_date entry_type amount category
        subcategory note = .ok (st2, e) →
      0 ≤ e.amount ∧ e.type ∈ (["收入", "支出"] : List String) ∧
      st2.entries = st.entries ++ [e]) := by
  unfold addEntry
  simp only [Bool.false_eq_true, if_false]
  split_ifs with h1 h2 h3 <;> simp_all [not_lt]

/-- Witness for C5: adding an entry with the invalid type 转账 raises a
ValueError and leaves the state unchanged. -/
theorem addEntry_validates_and_inserts_witness :
    ∃ m, addEntry false stImport 1 ⟨2023, 1, 1⟩ "转账" 1 "工资" none none =
      .error (.valueError m, stImport) :=
  (addEntry_validates_and_inserts stImport 1 ⟨2023, 1, 1⟩ "转账" 1 "工资"
      none none).1.mpr (Or.inl (by decide))

/-- C6: ProfileManager.delete_profile removes exactly the entries whose
profile_id is the deleted id (the schema's ON DELETE CASCADE with
PRAGMA foreign_keys = ON) and leaves every entry of every other profile
in place. -/
theorem deleteProfile_cascades (st : DBState) (profile_id : Nat) :
    ∃ st2 b, deleteProfile false st profile_id = .ok (st2, b) ∧
      st2.entries = st.entries.filter (fun e => e.profile_id != profile_id) ∧
      (∀ e ∈ st2.entries, e.profile_id ≠ profile_id) ∧
      (∀ e ∈ st.entries, e.profile_id ≠ profile_id → e ∈ st2.entries) ∧
      (∀ e ∈ st2.entries, e ∈ st.entries) := by
  refine ⟨_, _, rfl, rfl, ?_, ?_, ?_⟩
  · intro e he
    have h := (List.mem_filter.mp he).2
    simpa using h
  · intro e he hne
    exact List.mem_filter.mpr ⟨he, by simpa using hne⟩
  · intro e he
    exact (List.mem_filter.mp he).1

/-- Witness for C6 on a two-profile database with one entry each. -/
theorem deleteProfile_cascades_witness :
    ∃ st2 b, deleteProfile false stTwo 1 = .ok (st2, b) ∧
      st2.entries = stTwo.entries.filter (fun e => e.profile_id != 1) ∧
      (∀ e ∈ st2.entries, e.profile_id ≠ 1) ∧
      (∀ e ∈ stTwo.entries, e.profile_id ≠ 1 → e ∈ st2.entries) ∧
      (∀ e ∈ st2.entries, e ∈ stTwo.entries) :=
  deleteProfile_cascades stTwo 1

/-- CategoryManager.add_category succeeds when no row has the same
(name, parent) pair, appending the new category. -/
theorem addCategory_ok (st : DBState) (name : String) (parent : Option String)
    (h : (st.categories.any fun c => c.name == name && c.parent == parent) = false) :
    addCategory false st name parent =
      .ok ({ st with
              categories := st.categories ++ [⟨st.nextCategoryId, name, parent⟩],
              nextCategoryId := st.nextCategoryId + 1 },
           (⟨st.nextCategoryId, name, parent⟩ : Category)) := by
  unfold addCategory
  simp [h]

/-- CategoryManager.add_category raises ValueError when a row with the same
(name, parent) pair exists. -/
theorem addCategory_dup (st : DBState) (name : String) (parent : Option String)
    (h : (st.categories.any fun c => c.name == name && c.parent == parent) = true) :
    addCategory false st name parent =
      .error (.valueError ("分类 " ++ name ++ " 已存在"), st) := by
  unfold addCategory
  simp [h]

/-- C8: starting from any state with no category named Food, adding
(Food, no parent) succeeds, then adding (Food, parent Life) also succeeds
(composite uniqueness of the (name, parent) pair), while a second add of
(Food, no parent) raises a DuplicateError (ValueError). -/
theorem addCategory_composite_uniqueness (st : DBState)
    (hfood : ∀ c ∈ st.categories, c.name ≠ "Food") :
    ∃ st1 c1 st2 c2 m,
      addCategory false st "Food" none = .ok (st1, c1) ∧
      addCategory false st1 "Food" (some "Life") = .ok (st2, c2) ∧
      addCategory false st2 "Food" none = .error (.valueError m, st2) := by
  have h1 : (st.categories.any fun c =>
      c.name == "Food" && c.parent == (none : Option String)) = false := by
    rw [List.any_eq_false]
    intro c hc
    simp [hfood c hc]
  have e1 := addCategory_ok st "Food" none h1
  set st1 : DBState :=
    { st with
      categories := st.categories ++ [⟨st.nextCategoryId, "Food", none⟩],
      nextCategoryId := st.nextCategoryId + 1 } with hst1
  have h2 : (st1.categories.any fun c =>
      c.name == "Food" && c.parent == (some "Life" : Option String)) = false := by
    rw [List.any_eq_false]
    intro c hc
    rcases List.mem_append.mp hc with hc | hc
    · simp [hfood c hc]
    · simp at hc
      subst hc
      simp
  have e2 := addCategory_ok st1 "Food" (some "Life") h2
  set st2 : DBState :=
    { st1 with
      categories := st1.categories ++ [⟨st1.nextCategoryId, "Food", some "Life"⟩],
      nextCategoryId := st1.nextCategoryId + 1 } with hst2
  have h3 : (st2.categories.any fun c =>
      c.name == "Food" && c.parent == (none : Option String)) = true := by
    rw [List.any_eq_true]
    refine ⟨⟨st.nextCategoryId, "Food", none⟩, ?_, by simp⟩
    simp [hst2, hst1]
  have e3 := addCategory_dup st2 "Food" none h3
  exact ⟨st1, _, st2, _, _, e1, e2, e3⟩

/-- Witness for C8 from the freshly initialised database. -/
theorem addCategory_composite_uniqueness_witness :
    ∃ st1 c1 st2 c2 m,
      addCategory false stEmpty "Food" none = .ok (st1, c1) ∧
      addCategory false st1 "Food" (some "Life") = .ok (st2, c2) ∧
      addCategory false st2 "Food" none = .error (.valueError m, st2) :=
  addCategory_composite_uniqueness stEmpty (by simp [stEmpty])

/-- C9: EntryManager.update_entry with zero supplied fields succeeds and
leaves the state untouched; a supplied field is re-validated with the same
rules as add_entry (the call raises ValueError exactly when a supplied type,
amount or category is invalid, leaving the state unchanged); with valid
supplied fields it rewrites only the matching row through updField, which
overwrites exactly the supplied fields and keeps every unsupplied field at
its previous value. -/
theorem updateEntry_partial_update (st : DBState) (entry_id : Nat)
    (entry_date : Option Date) (entry_type : Option String) (amount : Option ℚ)
    (category : Option String) (subcategory note : Option String) :
    (updateEntry false st entry_id none none none none none none = .ok (st, true)) ∧
    ((∃ m, updateEntry false st entry_id entry_date entry_type amount category
        subcategory note = .error (.valueError m, st)) ↔
      ((∃ t ∈ entry_type, t ∉ (["收入", "支出"] : List String)) ∨
       (∃ a ∈ amount, a < 0) ∨ (∃ c ∈ category, pyStrip c = ""))) ∧
    (((∀ t ∈ entry_type, t ∈ (["收入", "支出"] : List String)) ∧
      (∀ a ∈ amount, 0 ≤ a) ∧ (∀ c ∈ category, pyStrip c ≠ "")) →
      ∃ st2 b, updateEntry false st entry_id entry_date entry_type amount category
          subcategory note = .ok (st2, b) ∧
        st2.profiles = st.profiles ∧ st2.categories = st.categories ∧
        st2.entries = st.entries.map (fun e =>
          if e.id = entry_id then
            updField e entry_date entry_type amount category subcategory note
          else e)) ∧
    (∀ e : Entry,
      (entry_date = none →
        (updField e entry_date entry_type amount category subcategory note).date = e.date) ∧
      (∀ d ∈ entry_date,
        (updField e entry_date entry_type amount category subcategory note).date = d) ∧
      (entry_type = none →
        (updField e entry_date entry_type amount category subcategory note).type = e.type) ∧
      (∀ t ∈ entry_type,
        (updField e entry_date entry_type amount category subcategory note).type = t) ∧
      (amount = none →
        (updField e entry_date entry_type amount category subcategory note).amount = e.amount) ∧
      (∀ a ∈ amount,
        (updField e entry_date entry_type amount category subcategory note).amount = a) ∧
      (category = none →
        (updField e entry_date entry_type amount category subcategory note).category = e.category) ∧
      (∀ c ∈ category,
        (updField e entry_date entry_type amount category subcategory note).category = pyStrip c) ∧
      (subcategory = none →
        (updField e entry_date entry_type amount category subcategory note).subcategory = e.subcategory) ∧
      (note = none →
        (updField e entry_date entry_type amount category subcategory note).note = e.note)) := by
  refine ⟨rfl, ?_, ?_, ?_⟩
  · rcases entry_type with _ | t <;> rcases amount with _ | a <;> rcases category with _ | c <;>
      unfold updateEntry <;>
      split_ifs <;>
      simp_all [not_lt]
  · rintro ⟨ht, ha, hc⟩
    have c1 : (entry_type.any fun t => !(["收入", "支出"] : List String).contains t) = false := by
      cases entry_type with
      | none => rfl
      | some t =>
        have h := ht t rfl
        simp at h ⊢
        tauto
    have c2 : (amount.any fun a => decide (a < 0)) = false := by
      cases amount with
      | none => rfl
      | some a => simpa [not_lt] using ha a rfl
    have c3 : (category.any fun c => pyStrip c == "") = false := by
      cases category with
      | none => rfl
      | some c => simpa using hc c rfl
    unfold updateEntry
    rw [c1, c2, c3]
    simp only [Bool.false_eq_true, if_false]
    by_cases hall : entry_date = none ∧ entry_type = none ∧ amount = none ∧ category = none
        ∧ subcategory = none ∧ note = none
    · rw [if_pos hall]
      obtain ⟨b1, b2, b3, b4, b5, b6⟩ := hall
      subst b1; subst b2; subst b3; subst b4; subst b5; subst b6
      refine ⟨st, true, rfl, rfl, rfl, ?_⟩
      have hid : ∀ e : Entry,
          (if e.id = entry_id then updField e none none none none none none else e) = e := by
        intro e
        have hu : updField e none none none none none none = e := rfl
        rw [hu, ite_self]
      simp [hid]
    · rw [if_neg hall]
      refine ⟨_, _, rfl, rfl, rfl, ?_⟩
      show List.map _ st.entries = List.map _ st.entries
      apply List.map_congr_left
      intro e _
      by_cases hid : e.id = entry_id <;> simp [hid]
  · intro e
    refine ⟨?_, ?_, ?_, ?_, ?_, ?_, ?_, ?_, ?_, ?_⟩ <;>
      first
      | (rintro rfl; simp [updField])
      | (intro x hx; rw [Option.mem_def] at hx; subst hx; simp [updField])

/-- Witness for C9: the zero-field update on a concrete database succeeds
and leaves it unchanged. -/
theorem updateEntry_partial_update_witness :
    updateEntry false stTwo 1 none none none none none none = .ok (stTwo, true) :=
  (updateEntry_partial_update stTwo 1 none none none none none none).1

/-- C10: ProfileManager.update_profile treats an empty-string name like an
unsupplied name: an update with name equal to the empty string and no
description returns True without modifying anything, and no call of
update_profile can turn a stored profile name into the empty string. -/
theorem updateProfile_empty_name_skipped (st : DBState) (profile_id : Nat) :
    updateProfile false st profile_id (some "") none = .ok (st, true) ∧
    (∀ sfail name description st2 b,
      updateProfile sfail st profile_id name description = .ok (st2, b) →
      ∀ p2 ∈ st2.profiles, p2.name = "" →
        ∃ p ∈ st.profiles, p.id = p2.id ∧ p.name = "") := by
  constructor
  · rfl
  · intro sfail name description st2 b h p2 hp2 hname
    unfold updateProfile at h
    split_ifs at h with h1 h2 h3
    · rw [Except.ok.injEq, Prod.mk.injEq] at h
      obtain ⟨hst, -⟩ := h
      subst hst
      exact ⟨p2, hp2, rfl, hname⟩
    · rw [Except.ok.injEq, Prod.mk.injEq] at h
      obtain ⟨hst, -⟩ := h
      subst hst
      exact ⟨p2, hp2, rfl, hname⟩
    · rw [Except.ok.injEq, Prod.mk.injEq] at h
      obtain ⟨hst, -⟩ := h
      subst hst
      exact ⟨p2, hp2, rfl, hname⟩
    · rw [Except.ok.injEq, Prod.mk.injEq] at h
      obtain ⟨hst, -⟩ := h
      subst hst
      simp only [List.mem_map] at hp2
      obtain ⟨p, hp, hfp⟩ := hp2
      by_cases hid : (p.id == profile_id) = true
      · rw [if_pos hid] at hfp
        subst hfp
        cases name with
        | none => exact ⟨p, hp, rfl, hname⟩
        | some nv =>
          by_cases hnv : nv = ""
          · rw [hnv] at hname ⊢
            simp at hname
            exact ⟨p, hp, rfl, hname⟩
          · simp [hnv] at hname
      · rw [if_neg hid] at hfp
        subst hfp
        exact ⟨p, hp, rfl, hname⟩

/-- Witness for C10 on a concrete two-profile database. -/
theorem updateProfile_empty_name_skipped_witness :
    updateProfile false stTwo 1 (some "") none = .ok (stTwo, true) :=
  (updateProfile_empty_name_skipped stTwo 1).1

/-- C4 counterexample: at a concrete state an unexpected storage failure in
update_profile, delete_profile, delete_entry and update_entry is swallowed
into an ordinary `False` return after rollback — none of them re-raises,
contradicting the claim that they must. -/
theorem storage_failure_swallowed_counterexample :
    updateProfile true stTwo 1 (some "NewName") none = .ok (stTwo, false) ∧
    deleteProfile true stTwo 1 = .ok (stTwo, false) ∧
    deleteEntry true stTwo 1 = .ok (stTwo, false) ∧
    updateEntry true stTwo 1 (some ⟨2023, 5, 1⟩) none none none none none =
      .ok (stTwo, false) := by
  exact ⟨rfl, rfl, rfl, rfl⟩

/-- C4 (amended): on an unexpected storage failure every mutating operation
rolls the transaction back (the pre-call state is returned untouched);
create_profile, add_entry and add_category re-raise it wrapped in a
RuntimeError carrying the operation context, while delete_profile,
update_profile, delete_entry, update_entry and delete_category swallow it
and report False. -/
theorem storage_failure_policy (st : DBState) (profile_id entry_id category_id : Nat)
    (name : Option String) (description : String) (d : Date)
    (newName catName : String) (catParent : Option String)
    (hnew : (st.profiles.any fun p => p.name == newName) = false)
    (hcat : (st.categories.any fun c => c.name == catName && c.parent == catParent) = false) :
    deleteProfile true st profile_id = .ok (st, false) ∧
    updateProfile true st profile_id name (some description) = .ok (st, false) ∧
    deleteEntry true st entry_id = .ok (st, false) ∧
    updateEntry true st entry_id (some d) none none none none none = .ok (st, false) ∧
    deleteCategory true st category_id = .ok (st, false) ∧
    (∃ m, addEntry true st profile_id d "收入" 1 "工资" none none =
      .error (.runtimeError m, st)) ∧
    (∃ m, createProfile true st newName description =
      .error (.runtimeError m, st)) ∧
    (∃ m, addCategory true st catName catParent =
      .error (.runtimeError m, st)) := by
  refine ⟨rfl, ?_, rfl, rfl, rfl, ⟨"添加条目失败", rfl⟩, ?_, ?_⟩
  · unfold updateProfile
    split_ifs with h1 h2 h3 <;>
      first
        | rfl
        | (exact absurd h1.2 (by simp))
        | simp_all
  · unfold createProfile
    rw [hnew]
    simp
  · unfold addCategory
    rw [hcat]
    simp

/-- Witness for C4 on a concrete database with a fresh profile name and a
fresh category pair. -/
theorem storage_failure_policy_witness :
    deleteProfile true stTwo 1 = .ok (stTwo, false) ∧
    updateProfile true stTwo 1 (some "User 9") (some "d") = .ok (stTwo, false) ∧
    deleteEntry true stTwo 2 = .ok (stTwo, false) ∧
    updateEntry true stTwo 2 (some ⟨2024, 1, 1⟩) none none none none none =
      .ok (stTwo, false) ∧
    deleteCategory true stTwo 1 = .ok (stTwo, false) ∧
    (∃ m, addEntry true stTwo 1 ⟨2024, 1, 1⟩ "收入" 1 "工资" none none =
      .error (.runtimeError m, stTwo)) ∧
    (∃ m, createProfile true stTwo "Fresh" "d" = .error (.runtimeError m, stTwo)) ∧
    (∃ m, addCategory true stTwo "Food" none = .error (.runtimeError m, stTwo)) :=
  storage_failure_policy stTwo 1 2 1 (some "User 9") "d" ⟨2024, 1, 1⟩ "Fresh" "Food"
    none (by decide) (by decide)

end FinTrack
